import Mathlib

/-!
Verification of the news-composition pipeline: a shallow embedding of the
chunker (`chunk_text`), the ingestion pipeline (`process_articles`) and the
composition orchestrator (`compose_industry_news`), together with theorems
settling the specification claims about them.

Python strings are modelled as `List Char`, Python ints as `Int`, and the
`while` loop of `chunk_text` as a fuel-indexed iteration: a `none` result
means the loop has not returned within `fuel` iterations, so
`∀ fuel, … = none` states that the loop never terminates.
-/

namespace NewsPipeline

/-- Effective index of a Python slice bound `i` for a sequence of length
`len`: negative indices count from the end, and both directions clamp into
`[0, len]`. -/
def pyIndex (len : Nat) (i : Int) : Nat :=
  if i < 0 then ((len : Int) + i).toNat else min i.toNat len

/-- Python slice `s[a:b]`. -/
def pySlice (s : List Char) (a b : Int) : List Char :=
  (s.take (pyIndex s.length b)).drop (pyIndex s.length a)

/-- The `while start < text_length` loop body of `chunk_text`
(src/text_processing.py): compute `end = min(start + chunk_size, len)`,
emit `text[start:end]`, set `start = end - overlap`.  `fuel` bounds the
number of iterations; when the guard is already false the loop returns its
accumulated chunks regardless of fuel. -/
def chunkLoop (t : List Char) (cs ov : Int) :
    Nat → Int → List (List Char) → Option (List (List Char))
  | 0, start, chunks =>
      if start < (t.length : Int) then none else some chunks
  | f + 1, start, chunks =>
      if start < (t.length : Int) then
        let e := if start + cs > (t.length : Int) then (t.length : Int) else start + cs
        chunkLoop t cs ov f (e - ov) (chunks ++ [pySlice t start e])
      else some chunks

/-- `chunk_text(text, chunk_size, overlap)` from src/text_processing.py,
fuel-indexed. -/
def chunk_text (t : List Char) (cs ov : Int) (fuel : Nat) :
    Option (List (List Char)) :=
  chunkLoop t cs ov fuel 0 []

/-- Once the cursor sits strictly below the text length, a positive overlap
keeps it there forever: the new cursor is `min(start+cs, len) - ov ≤ len - 1`.
Hence the loop returns `none` for every fuel. -/
lemma chunkLoop_none_of_pos_overlap (t : List Char) (cs ov : Int) (hov : 1 ≤ ov) :
    ∀ (fuel : Nat) (start : Int) (acc : List (List Char)),
      start < (t.length : Int) → chunkLoop t cs ov fuel start acc = none := by
  intro fuel
  induction fuel with
  | zero =>
    intro s acc h
    simp only [chunkLoop, if_pos h]
  | succ f ih =>
    intro s acc h
    simp only [chunkLoop, if_pos h]
    apply ih
    split <;> omega

/-- With zero overlap the cursor advances by `min(cs, len - start) ≥ 1` each
iteration, so `len - start` iterations suffice, and the emitted chunks
concatenate to the suffix of the text from the cursor on. -/
lemma chunkLoop_zero_overlap_join (t : List Char) (cs : Int) (hcs : 1 ≤ cs) :
    ∀ (fuel : Nat) (start : Nat) (acc : List (List Char)),
      t.length ≤ start + fuel →
      ∃ out, chunkLoop t cs 0 fuel (start : Int) acc = some out ∧
        out.flatten = acc.flatten ++ t.drop start := by
  intro fuel
  induction fuel with
  | zero =>
    intro start acc h
    have hge : ¬ ((start : Int) < (t.length : Int)) := by omega
    refine ⟨acc, ?_, ?_⟩
    · simp only [chunkLoop, if_neg hge]
    · rw [List.drop_eq_nil_of_le (by omega), List.append_nil]
  | succ f ih =>
    intro start acc h
    by_cases hlt : start < t.length
    · have hlt' : (start : Int) < (t.length : Int) := by omega
      simp only [chunkLoop, if_pos hlt']
      by_cases hbig : (start : Int) + cs > (t.length : Int)
      · -- final window: emit text[start:len], cursor jumps to len
        rw [if_pos hbig]
        have hchunk : pySlice t (start : Int) ((t.length : Int)) = t.drop start := by
          unfold pySlice pyIndex
          rw [if_neg (by omega), if_neg (by omega)]
          have hA : ((t.length : Int)).toNat = t.length := by omega
          have hB : ((start : Int)).toNat = start := by omega
          rw [hA, hB, min_self, min_eq_left (le_of_lt hlt), List.take_length]
        have hcur : ((t.length : Int)) - 0 = ((t.length : Nat) : Int) := by omega
        rw [hchunk, hcur]
        obtain ⟨out, hout, hjoin⟩ := ih t.length (acc ++ [t.drop start]) (by omega)
        refine ⟨out, hout, ?_⟩
        rw [hjoin, List.drop_eq_nil_of_le (le_refl t.length)]
        simp
      · -- full window: emit text[start:start+cs], cursor moves to start+cs
        rw [if_neg hbig]
        have hk : ∃ k : Nat, cs = (k : Int) ∧ 1 ≤ k := by
          refine ⟨cs.toNat, ?_, ?_⟩ <;> omega
        obtain ⟨k, hkeq, hk1⟩ := hk
        have hle : start + k ≤ t.length := by omega
        have hchunk : pySlice t (start : Int) ((start : Int) + cs) =
            (t.drop start).take k := by
          unfold pySlice pyIndex
          rw [if_neg (by omega), if_neg (by omega)]
          have h1 : ((start : Int) + cs).toNat = start + k := by omega
          have h2 : (start : Int).toNat = start := by omega
          rw [h1, h2, min_eq_left hle, min_eq_left (by omega)]
          rw [List.take_add, List.drop_append_of_le_length (by simp; omega)]
          rw [List.drop_eq_nil_of_le (by simp), List.nil_append]
        have hcur : (start : Int) + cs - 0 = ((start + k : Nat) : Int) := by
          push_cast
          omega
        rw [hchunk, hcur]
        obtain ⟨out, hout, hjoin⟩ := ih (start + k) (acc ++ [(t.drop start).take k])
          (by omega)
        refine ⟨out, hout, ?_⟩
        rw [hjoin]
        rw [show List.drop (start + k) t = List.drop k (List.drop start t) by
          rw [List.drop_drop, Nat.add_comm]]
        simp only [List.flatten_append, List.flatten_cons, List.flatten_nil,
          List.append_nil, List.append_assoc]
        rw [List.take_append_drop]
    · have hge : ¬ ((start : Int) < (t.length : Int)) := by omega
      refine ⟨acc, ?_, ?_⟩
      · simp only [chunkLoop, if_neg hge]
      · rw [List.drop_eq_nil_of_le (by omega), List.append_nil]

/-- C1: the claim says that for `chunk_size > 0` and `overlap >= chunk_size`
the chunker either raises `ConfigurationError` or terminates; in fact
`chunk_text` has no configuration check at all and, at the claim's own
example `chunk_size = 1000, overlap = 1000` on the one-character text "a",
the loop never returns: no iteration bound (fuel) suffices. -/
theorem chunk_text_hangs_overlap_eq_size :
    ∀ fuel : Nat, chunk_text ['a'] 1000 1000 fuel = none := by
  intro fuel
  exact chunkLoop_none_of_pos_overlap ['a'] 1000 1000 (by norm_num) fuel 0 []
    (by norm_num)

/-- C2: the claim says a text of length at most `chunk_size` with a valid
overlap yields exactly `[T]`; at text "a", `chunk_size = 2`, `overlap = 1`
(valid: `0 ≤ 1 < 2`) the loop instead re-emits the last window forever and
never returns. -/
theorem chunk_text_hangs_short_text_overlap_one :
    ∀ fuel : Nat, chunk_text ['a'] 2 1 fuel = none := by
  intro fuel
  exact chunkLoop_none_of_pos_overlap ['a'] 2 1 (by norm_num) fuel 0 []
    (by norm_num)

/-- C3: the claim quantifies over all `0 ≤ overlap < chunk_size`, but for
any positive overlap within that range — here text "abc", `chunk_size = 2`,
`overlap = 1` — the loop never terminates, so no covering chunk sequence is
ever returned. -/
theorem chunk_text_hangs_valid_overlap :
    ∀ fuel : Nat, chunk_text ['a', 'b', 'c'] 2 1 fuel = none := by
  intro fuel
  exact chunkLoop_none_of_pos_overlap ['a', 'b', 'c'] 2 1 (by norm_num) fuel 0 []
    (by norm_num)

/-- C10: with zero overlap `chunk_text` terminates (fuel `len + 1`
iterations suffice) and the returned chunks concatenate, in order, to the
input text. -/
theorem chunk_text_zero_overlap_concat (t : List Char) (cs : Int) (hcs : 1 ≤ cs) :
    ∃ out, chunk_text t cs 0 (t.length + 1) = some out ∧ out.flatten = t := by
  obtain ⟨out, hout, hjoin⟩ :=
    chunkLoop_zero_overlap_join t cs hcs (t.length + 1) 0 [] (by omega)
  refine ⟨out, ?_, ?_⟩
  · simpa only [chunk_text, Nat.cast_zero] using hout
  · simpa using hjoin

/-- Witness for C10 at the concrete text "abcde" with `chunk_size = 2`. -/
theorem chunk_text_zero_overlap_concat_witness :
    ∃ out, chunk_text ['a', 'b', 'c', 'd', 'e'] 2 0 6 = some out ∧
      out.flatten = ['a', 'b', 'c', 'd', 'e'] :=
  chunk_text_zero_overlap_concat ['a', 'b', 'c', 'd', 'e'] 2 (by norm_num)

/-- `CHUNK_SIZE` from src/config.py. -/
def CHUNK_SIZE : Int := 1000

/-- `CHUNK_OVERLAP` from src/config.py. -/
def CHUNK_OVERLAP : Int := 200

/-- An article record as assembled by `fetch_industry_news`
(src/news_agent_plugin.py). -/
structure Article where
  url : String
  title : String
  snippet : String
  keywords : List String
  focus_point : String
  deriving DecidableEq

/-- The parsed form of the keyword-extraction LLM response:
`industry` plus a mapping from focus point to keyword list. -/
structure ParsedKW where
  industry : Option String
  keywords : List (String × List String)
  deriving DecidableEq

/-- `extract_search_keywords` (src/news_agent_plugin.py): the raw LLM
response is parsed by the external collaborator; `none` models an empty or
unparseable response, which the `except` branch converts into the default
record with industry `None` and an empty keyword mapping instead of
failing. -/
def extract_search_keywords (raw : Option ParsedKW) : ParsedKW :=
  match raw with
  | some kw => kw
  | none => { industry := none, keywords := [] }

/-- One organic search result returned by the search collaborator. -/
structure SearchItem where
  link : String
  title : String
  snippet : String
  deriving DecidableEq

/-- Render of Python's f-string interpolation of an optional value. -/
def pyStr (o : Option String) : String :=
  match o with
  | some s => s
  | none => "None"

/-- The search query built by `fetch_industry_news`: the industry, the
space-joined keyword list, and the word news. -/
def searchQuery (industry : Option String) (kws : List String) : String :=
  pyStr industry ++ " " ++ String.intercalate " " kws ++ " news"

/-- `fetch_industry_news` (src/news_agent_plugin.py): one search-collaborator
call per focus point, in order; each organic result becomes an `Article`
tagged with that focus point.  An exception from the collaborator
propagates (`Except.error`). -/
def fetch_industry_news (search : String → Except String (List SearchItem))
    (industry : Option String) :
    List (String × List String) → Except String (List Article)
  | [] => .ok []
  | (fp, kws) :: rest =>
    match search (searchQuery industry kws) with
    | .error e => .error e
    | .ok items =>
      match fetch_industry_news search industry rest with
      | .error e => .error e
      | .ok restArts =>
        .ok (items.map (fun it =>
          { url := it.link, title := it.title, snippet := it.snippet,
            keywords := kws, focus_point := fp }) ++ restArts)

/-- One row of the processed-articles frame built by `process_articles`.
The random `uuid4` identifiers (`chunk_id`, `article_id`) are opaque
nondeterministic strings and are abstracted away; every other column is
kept. -/
structure ChunkRecord where
  link : String
  title : String
  snippet : String
  keywords : List String
  session_id : String
  category : String
  chunked_text : List Char
  embedding : List Rat
  deriving DecidableEq

/-- The inner `for i, chunk in enumerate(chunks)` loop of
`process_articles`: embed each chunk in order and build its row.  The
embedding call has no exception handler, so the first failure propagates
and every row built so far is lost. -/
def embedChunks (embed : List Char → Except String (List Rat))
    (sid : String) (a : Article) :
    List (List Char) → Except String (List ChunkRecord)
  | [] => .ok []
  | c :: rest =>
    match embed c with
    | .error e => .error e
    | .ok v =>
      match embedChunks embed sid a rest with
      | .error e => .error e
      | .ok rows =>
        .ok ({ link := a.url, title := a.title, snippet := a.snippet,
               keywords := a.keywords, session_id := sid,
               category := a.focus_point, chunked_text := c,
               embedding := v } :: rows)

/-- `process_articles` (src/news_agent_plugin.py): per article, scrape the
URL (`scrape_article` returns the empty string on any fetch error), skip
the article when the text is empty, otherwise chunk it with the configured
`chunk_size`/`overlap` and embed every chunk.  `none` means the call has
not returned within `fuel` chunking iterations; an `Except.error` is an
uncaught embedding exception escaping the whole call. -/
def process_articles (scrape : String → List Char)
    (embed : List Char → Except String (List Rat))
    (cs ov : Int) (fuel : Nat) (sid : String) :
    List Article → Option (Except String (List ChunkRecord))
  | [] => some (.ok [])
  | a :: rest =>
    if scrape a.url = [] then
      process_articles scrape embed cs ov fuel sid rest
    else
      match chunk_text (scrape a.url) cs ov fuel with
      | none => none
      | some chunks =>
        match embedChunks embed sid a chunks with
        | .error e => some (.error e)
        | .ok rows =>
          match process_articles scrape embed cs ov fuel sid rest with
          | none => none
          | some (.error e) => some (.error e)
          | some (.ok rest') => some (.ok (rows ++ rest'))

/-- The metadata stored with a chunk in the vector index, as read back by
`retrieve_from_vector_db`. -/
structure ChunkMeta where
  link : String
  title : String
  snippet : String
  deriving DecidableEq

/-- One zipped (document, metadata, distance) triple returned by the vector
index query in `retrieve_from_vector_db`. -/
structure RItem where
  text : List Char
  metadata : ChunkMeta
  distance : Rat
  deriving DecidableEq

/-- `retrieve_from_vector_db` (src/news_agent_plugin.py): embed the query
text, run the nearest-neighbor query, and return the zipped results.  An
exception in either external call propagates out of the whole retrieval. -/
def retrieve_from_vector_db (queryEmbed : String → Except String (List Rat))
    (vquery : List Rat → Nat → Except String (List RItem))
    (q : String) (n : Nat) : Except String (List RItem) :=
  match queryEmbed q with
  | .error e => .error e
  | .ok emb => vquery emb n

/-- One article entry of a focus-point summary in the composed report
(src/control_agent.py, the inner `for result in results` loop):
`relevance_score` is `1 - distance` and `text_snippet` is the first 200
characters of the chunk text followed by an ellipsis. -/
structure ArticleSummary where
  title : String
  url : String
  snippet : String
  relevance_score : Rat
  text_snippet : List Char
  deriving DecidableEq

/-- The mapping from a retrieval result to its article entry in the
composed report (src/control_agent.py lines 90-97). -/
def mkArticleSummary (r : RItem) : ArticleSummary :=
  { title := r.metadata.title, url := r.metadata.link,
    snippet := r.metadata.snippet,
    relevance_score := 1 - r.distance,
    text_snippet := r.text.take 200 ++ ['.', '.', '.'] }

/-- One `focus_point_summary` block of the composed report. -/
structure FocusBlock where
  focus_point : String
  articles : List ArticleSummary
  deriving DecidableEq

/-- The retrieval query `company focus_point time_period` built in
`compose_industry_news`. -/
def focusQuery (company fp tp : String) : String :=
  company ++ " " ++ fp ++ " " ++ tp

/-- One iteration of the `for focus_point in focus_points` loop of
`compose_industry_news`: retrieve and build the summary block for one
focus point. -/
def focusSummary (queryEmbed : String → Except String (List Rat))
    (vquery : List Rat → Nat → Except String (List RItem))
    (company tp : String) (mr : Nat) (fp : String) :
    Except String FocusBlock :=
  match retrieve_from_vector_db queryEmbed vquery (focusQuery company fp tp) mr with
  | .error e => .error e
  | .ok results =>
    .ok { focus_point := fp, articles := results.map mkArticleSummary }

/-- The full `for focus_point in focus_points` loop, in input order; the
first exception aborts the loop and propagates. -/
def retrieveAll (queryEmbed : String → Except String (List Rat))
    (vquery : List Rat → Nat → Except String (List RItem))
    (company tp : String) (mr : Nat) :
    List String → Except String (List FocusBlock)
  | [] => .ok []
  | fp :: rest =>
    match focusSummary queryEmbed vquery company tp mr fp with
    | .error e => .error e
    | .ok block =>
      match retrieveAll queryEmbed vquery company tp mr rest with
      | .error e => .error e
      | .ok blocks => .ok (block :: blocks)

/-- The composed report (`composed_results` in src/control_agent.py). -/
structure Report where
  company : String
  industry : Option String
  focus_points : List String
  session_id : String
  timestamp : String
  news_summary : List FocusBlock

/-- One session-history record (`self.session_history[session_id]`). -/
structure Session where
  timestamp : String
  company : String
  industry : Option String
  focus_points : List String
  deriving DecidableEq

/-- What `compose_industry_news` hands back to its caller: the composed
report, or the error envelope built in the `except` branch. -/
inductive ComposeOutcome where
  | report (r : Report)
  | envelope (error session_id timestamp : String)

/-- The external collaborators of one `compose_industry_news` run.
`llm` is the keyword-extraction call: `Except.error` is an exception
raised by the completion service itself, `Except.ok none` an empty or
unparseable response (caught inside `extract_search_keywords`).
`scrape` is total because `scrape_article` catches every exception and
returns the empty string.  `now` stands for `datetime.now().isoformat()`. -/
structure Collab where
  llm : Except String (Option ParsedKW)
  search : String → Except String (List SearchItem)
  scrape : String → List Char
  embed : List Char → Except String (List Rat)
  queryEmbed : String → Except String (List Rat)
  vquery : List Rat → Nat → Except String (List RItem)
  now : String

/-- `compose_industry_news` (src/control_agent.py): keyword extraction,
news fetch, ingestion, then one retrieval per focus point in input order;
the session-history entry is written only after the whole summary loop, and
any exception anywhere in the `try` block yields the error envelope with
the session id and timestamp, leaving the history untouched.  The result is
`none` when ingestion never returns (chunking out of fuel), otherwise the
outcome paired with the updated session history. -/
def compose_industry_news (c : Collab) (fuel : Nat) (company : String)
    (focus_points : List String) (session_id : String) (mr : Nat)
    (tp : String) (history : String → Option Session) :
    Option (ComposeOutcome × (String → Option Session)) :=
  match c.llm with
  | .error e => some (.envelope e session_id c.now, history)
  | .ok raw =>
    match fetch_industry_news c.search (extract_search_keywords raw).industry
        (extract_search_keywords raw).keywords with
    | .error e => some (.envelope e session_id c.now, history)
    | .ok articles =>
      match process_articles c.scrape c.embed CHUNK_SIZE CHUNK_OVERLAP fuel
          session_id articles with
      | none => none
      | some (.error e) => some (.envelope e session_id c.now, history)
      | some (.ok _rows) =>
        match retrieveAll c.queryEmbed c.vquery company tp mr focus_points with
        | .error e => some (.envelope e session_id c.now, history)
        | .ok blocks =>
          some (.report
            { company := company,
              industry := (extract_search_keywords raw).industry,
              focus_points := focus_points, session_id := session_id,
              timestamp := c.now, news_summary := blocks },
            fun s => if s = session_id then
              some { timestamp := c.now, company := company,
                     industry := (extract_search_keywords raw).industry,
                     focus_points := focus_points }
            else history s)

lemma focusSummary_ok_focus (qe : String → Except String (List Rat))
    (vq : List Rat → Nat → Except String (List RItem))
    (company tp : String) (mr : Nat) (fp : String) (b : FocusBlock)
    (h : focusSummary qe vq company tp mr fp = .ok b) : b.focus_point = fp := by
  unfold focusSummary at h
  split at h
  · simp at h
  · simp only [Except.ok.injEq] at h
    subst h
    rfl

lemma focusSummary_ok_articles (qe : String → Except String (List Rat))
    (vq : List Rat → Nat → Except String (List RItem))
    (company tp : String) (mr : Nat) (fp : String) (b : FocusBlock)
    (h : focusSummary qe vq company tp mr fp = .ok b) :
    ∃ rs : List RItem, b.articles = rs.map mkArticleSummary := by
  unfold focusSummary at h
  split at h
  · simp at h
  · simp only [Except.ok.injEq] at h
    subst h
    rename_i results heq
    exact ⟨results, rfl⟩

lemma retrieveAll_ok_focus_order (qe : String → Except String (List Rat))
    (vq : List Rat → Nat → Except String (List RItem))
    (company tp : String) (mr : Nat) :
    ∀ (fps : List String) (blocks : List FocusBlock),
      retrieveAll qe vq company tp mr fps = .ok blocks →
      blocks.map FocusBlock.focus_point = fps := by
  intro fps
  induction fps with
  | nil =>
    intro blocks h
    simp only [retrieveAll, Except.ok.injEq] at h
    subst h
    rfl
  | cons fp rest ih =>
    intro blocks h
    unfold retrieveAll at h
    split at h
    · simp at h
    · rename_i block heqf
      split at h
      · simp at h
      · rename_i blocks' heqr
        simp only [Except.ok.injEq] at h
        subst h
        simp only [List.map_cons, focusSummary_ok_focus qe vq company tp mr fp block heqf,
          ih blocks' heqr]

lemma retrieveAll_ok_articles (qe : String → Except String (List Rat))
    (vq : List Rat → Nat → Except String (List RItem))
    (company tp : String) (mr : Nat) :
    ∀ (fps : List String) (blocks : List FocusBlock),
      retrieveAll qe vq company tp mr fps = .ok blocks →
      ∀ b ∈ blocks, ∃ rs : List RItem, b.articles = rs.map mkArticleSummary := by
  intro fps
  induction fps with
  | nil =>
    intro blocks h
    simp only [retrieveAll, Except.ok.injEq] at h
    subst h
    simp
  | cons fp rest ih =>
    intro blocks h
    unfold retrieveAll at h
    split at h
    · simp at h
    · rename_i block heqf
      split at h
      · simp at h
      · rename_i blocks' heqr
        simp only [Except.ok.injEq] at h
        subst h
        intro b hb
        rcases List.mem_cons.mp hb with hb | hb
        · subst hb
          exact focusSummary_ok_articles qe vq company tp mr fp b heqf
        · exact ih blocks' heqr b hb

/-- Inversion of a successful composition: the report's `news_summary` is
exactly the output of the retrieval loop over the focus points. -/
lemma compose_report_inv (c : Collab) (fuel : Nat) (company : String)
    (fps : List String) (sid : String) (mr : Nat) (tp : String)
    (history : String → Option Session) (r : Report)
    (h' : String → Option Session)
    (h : compose_industry_news c fuel company fps sid mr tp history =
      some (.report r, h')) :
    retrieveAll c.queryEmbed c.vquery company tp mr fps = .ok r.news_summary := by
  unfold compose_industry_news at h
  repeat' split at h
  all_goals simp_all
  obtain ⟨h1, h2⟩ := h
  subst h1
  rfl

/-- C7: whenever `compose_industry_news` returns a composed report, the
`focus_point` fields of `news_summary` appear in exactly the input order of
`focus_points` (the retrieval loop iterates the input list in order). -/
theorem compose_preserves_focus_point_order (c : Collab) (fuel : Nat)
    (company : String) (fps : List String) (sid : String) (mr : Nat)
    (tp : String) (history : String → Option Session) (r : Report)
    (h' : String → Option Session)
    (h : compose_industry_news c fuel company fps sid mr tp history =
      some (.report r, h')) :
    r.news_summary.map FocusBlock.focus_point = fps :=
  retrieveAll_ok_focus_order c.queryEmbed c.vquery company tp mr fps
    r.news_summary
    (compose_report_inv c fuel company fps sid mr tp history r h' h)

/-- C8: every article entry of a composed report is the image of a
retrieval result under `mkArticleSummary`, so its `relevance_score` is
exactly `1 - distance`. -/
theorem compose_relevance_score_eq_one_sub_distance (c : Collab) (fuel : Nat)
    (company : String) (fps : List String) (sid : String) (mr : Nat)
    (tp : String) (history : String → Option Session) (r : Report)
    (h' : String → Option Session)
    (h : compose_industry_news c fuel company fps sid mr tp history =
      some (.report r, h')) :
    ∀ b ∈ r.news_summary, ∀ a ∈ b.articles, ∃ item : RItem,
      a = mkArticleSummary item ∧ a.relevance_score = 1 - item.distance := by
  intro b hb a ha
  obtain ⟨rs, hrs⟩ := retrieveAll_ok_articles c.queryEmbed c.vquery company tp
    mr fps r.news_summary
    (compose_report_inv c fuel company fps sid mr tp history r h' h) b hb
  rw [hrs] at ha
  obtain ⟨item, _, rfl⟩ := List.mem_map.mp ha
  exact ⟨item, rfl, rfl⟩

/-- C9: whenever `compose_industry_news` returns the error envelope, the
session history is returned untouched — the history write is the last step
of the `try` block, after every failure point. -/
theorem compose_envelope_leaves_history (c : Collab) (fuel : Nat)
    (company : String) (fps : List String) (sid : String) (mr : Nat)
    (tp : String) (history : String → Option Session) (e s ts : String)
    (h' : String → Option Session)
    (h : compose_industry_news c fuel company fps sid mr tp history =
      some (.envelope e s ts, h')) :
    h' = history := by
  unfold compose_industry_news at h
  repeat' split at h
  all_goals simp_all

/-- Collaborators for the keyword-extraction-failure scenario: the LLM
response is empty/unparseable (`.ok none`), every other collaborator
succeeds, and the vector index is empty. -/
def kwFailCollab : Collab :=
  { llm := .ok none,
    search := fun _ => .ok [],
    scrape := fun _ => [],
    embed := fun _ => .ok [],
    queryEmbed := fun _ => .ok [0],
    vquery := fun _ _ => .ok [],
    now := "2024-01-01T00:00:00" }

/-- C4: with an empty/unparseable keyword-extraction response the code does
not fail — `extract_search_keywords` silently substitutes the default
(industry `None`, no keywords) and `compose_industry_news` proceeds to a
composed report (with an empty summary block per focus point) instead of
the error envelope the claim requires. -/
theorem compose_report_despite_unparseable_keywords :
    ∃ (r : Report) (h' : String → Option Session),
      compose_industry_news kwFailCollab 1 "Acme" ["A"] "s1" 5 "last_month"
        (fun _ => none) = some (.report r, h') ∧
      r.industry = none ∧ r.news_summary = [{ focus_point := "A", articles := [] }] :=
  ⟨_, _, rfl, rfl, rfl⟩

/-- First article of the fetch-failure scenario. -/
def artU1 : Article :=
  { url := "u1", title := "t1", snippet := "s1", keywords := [], focus_point := "A" }

/-- Second article of the fetch-failure scenario (its URL always fails to
fetch, so `scrape_article` returns the empty string). -/
def artU2 : Article :=
  { url := "u2", title := "t2", snippet := "s2", keywords := [], focus_point := "A" }

/-- Third article of the fetch-failure scenario. -/
def artU3 : Article :=
  { url := "u3", title := "t3", snippet := "s3", keywords := [], focus_point := "A" }

/-- Scraper for the fetch-failure scenario: article 2's URL fails (empty
text); every other URL yields the two-character text "xy". -/
def scrapeFailU2 : String → List Char :=
  fun u => if u = "u2" then [] else ['x', 'y']

/-- An embedding collaborator that always succeeds. -/
def embedOk : List Char → Except String (List Rat) :=
  fun _ => .ok [1]

/-- C6: in the three-article batch where only article 2's fetch fails, the
pipeline does skip article 2, but it never produces the records for
articles 1 and 3: with the configured `CHUNK_SIZE = 1000` and
`CHUNK_OVERLAP = 200`, chunking article 1's nonempty text never terminates,
so `process_articles` never returns for any iteration bound. -/
theorem process_articles_hangs_despite_fetch_isolation :
    ∀ fuel : Nat, process_articles scrapeFailU2 embedOk CHUNK_SIZE CHUNK_OVERLAP
      fuel "s1" [artU1, artU2, artU3] = none := by
  intro fuel
  have hchunk : chunk_text ['x', 'y'] CHUNK_SIZE CHUNK_OVERLAP fuel = none := by
    unfold chunk_text
    exact chunkLoop_none_of_pos_overlap ['x', 'y'] CHUNK_SIZE CHUNK_OVERLAP
      (by norm_num [CHUNK_OVERLAP]) fuel 0 [] (by norm_num)
  simp only [process_articles]
  have hs1 : scrapeFailU2 artU1.url = ['x', 'y'] := rfl
  rw [hs1, if_neg (by decide : ¬ (['x', 'y'] : List Char) = []), hchunk]

/-- Scraper for the embedding-failure scenario: every URL yields "xy". -/
def scrapeXY : String → List Char := fun _ => ['x', 'y']

/-- Embedding collaborator that fails on the chunk "y" and succeeds on
everything else. -/
def embedFailY : List Char → Except String (List Rat) :=
  fun c => if c = ['y'] then .error "embedding failure" else .ok [1]

/-- C5: the embedding call inside `process_articles` has no exception
handler, so one chunk's failure aborts everything.  With chunking
parameters under which the chunker terminates (`chunk_size = 1`,
`overlap = 0`), article 1 splits into chunks "x" and "y"; the embedding
failure on "y" makes the whole two-article batch return the error — the
already-embedded chunk "x" and all of article 2 are lost, instead of only
the failing chunk being skipped.  (With the shipped `CHUNK_OVERLAP = 200`
the embed call is never even reached, since chunking hangs first.) -/
theorem process_articles_embed_failure_aborts_batch :
    process_articles scrapeXY embedFailY 1 0 5 "s1" [artU1, artU2] =
      some (.error "embedding failure") := by
  rfl

/-- Collaborators for a fully successful composition over two focus
points. -/
def okCollab : Collab :=
  { llm := .ok (some { industry := some "Automotive", keywords := [] }),
    search := fun _ => .ok [],
    scrape := fun _ => [],
    embed := fun _ => .ok [],
    queryEmbed := fun _ => .ok [0],
    vquery := fun _ _ => .ok [],
    now := "2024-01-01T00:00:00" }

/-- Witness for C7: a concrete successful composition over
`focus_points = ["A", "B"]` whose summary blocks carry exactly
`["A", "B"]` in order. -/
theorem compose_preserves_focus_point_order_witness :
    ∃ (r : Report) (h' : String → Option Session),
      compose_industry_news okCollab 1 "Acme" ["A", "B"] "s1" 5 "last_month"
        (fun _ => none) = some (.report r, h') ∧
      r.news_summary.map FocusBlock.focus_point = ["A", "B"] :=
  ⟨_, _, rfl,
    compose_preserves_focus_point_order okCollab 1 "Acme" ["A", "B"] "s1" 5
      "last_month" (fun _ => none) _ _ rfl⟩

/-- The single retrieval result of the relevance-score scenario: vector
distance 3/10. -/
def item310 : RItem :=
  { text := ['z'], metadata := { link := "l", title := "t", snippet := "s" },
    distance := 3/10 }

/-- Collaborators for the relevance-score scenario: retrieval returns the
one result at distance 3/10. -/
def distCollab : Collab :=
  { llm := .ok (some { industry := some "Automotive", keywords := [] }),
    search := fun _ => .ok [],
    scrape := fun _ => [],
    embed := fun _ => .ok [],
    queryEmbed := fun _ => .ok [0],
    vquery := fun _ _ => .ok [item310],
    now := "2024-01-01T00:00:00" }

/-- Witness for C8: in a concrete successful composition whose retrieval
result has distance 3/10, every reported article entry has
`relevance_score = 1 - distance`, and the one entry scores 7/10. -/
theorem compose_relevance_score_witness :
    ∃ (r : Report) (h' : String → Option Session),
      compose_industry_news distCollab 1 "Acme" ["A"] "s1" 5 "last_month"
        (fun _ => none) = some (.report r, h') ∧
      (∀ b ∈ r.news_summary, ∀ a ∈ b.articles, ∃ item : RItem,
        a = mkArticleSummary item ∧ a.relevance_score = 1 - item.distance) ∧
      (mkArticleSummary item310).relevance_score = 7/10 :=
  ⟨_, _, rfl,
    compose_relevance_score_eq_one_sub_distance distCollab 1 "Acme" ["A"] "s1"
      5 "last_month" (fun _ => none) _ _ rfl,
    by norm_num [mkArticleSummary, item310]⟩

/-- Collaborators whose keyword-extraction call itself raises. -/
def llmRaiseCollab : Collab :=
  { llm := .error "llm boom",
    search := fun _ => .ok [],
    scrape := fun _ => [],
    embed := fun _ => .ok [],
    queryEmbed := fun _ => .ok [0],
    vquery := fun _ _ => .ok [],
    now := "T0" }

/-- Witness for C9: a concrete composition that fails (the LLM call raises)
returns the envelope and leaves the session history exactly as it was. -/
theorem compose_envelope_leaves_history_witness :
    compose_industry_news llmRaiseCollab 1 "Acme" ["A"] "s1" 5 "last_month"
      (fun _ => none) = some (.envelope "llm boom" "s1" "T0", fun _ => none) ∧
    (fun _ : String => (none : Option Session)) = (fun _ : String => none) :=
  ⟨rfl,
    compose_envelope_leaves_history llmRaiseCollab 1 "Acme" ["A"] "s1" 5
      "last_month" (fun _ => none) "llm boom" "s1" "T0" _ rfl⟩

end NewsPipeline
